import Mathlib

/-!
Shallow embedding of src/python/tui/textualize/footer.py.

The file defines four Textual classes; the behavioural claims concern
the reactive status-to-label propagation of DynamicFooter (lines 37-49),
the constructor default of EnhancedFooter (lines 77-83), the
watcher-less reactive of NoScrollFooterApp (lines 119-129), and the
missing import of the name Container (lines 3, 37, 51).

Widget trees are modelled as lists of widgets; `query_one("#id", Label)`
becomes a first-match lookup by id that fails with `noMatches` when no
label carries the id (Textual's query_one raises NoMatches then).

Reactive attributes follow Textual's documented Reactive semantics,
which the source relies on at `status = reactive("Ready")`:
assigning a reactive calls the corresponding `watch_<name>` method
synchronously, but only when the new value differs from the stored one
(the default is `always_update=False`, so assigning an equal value is
skipped entirely: no store, no watcher, no refresh); a class with no
`watch_<name>` method just stores the value.  Watchers fire on
assignment whether or not the widget is mounted; before mount the
compose result does not exist yet, so a query inside the watcher fails.
-/

/-- The widget kinds composed in footer.py: `Header()`, `Footer(id=...)`,
and `Label(text, id=..., classes=...)`. -/
inductive Widget where
  | header : Widget
  | footer (id : Option String) : Widget
  | label (id : Option String) (classes : Option String) (text : String) : Widget
deriving DecidableEq

/-- Error raised by `query_one` when no node matches the selector. -/
inductive QueryError where
  | noMatches : QueryError
deriving DecidableEq

/-- Text of the first label whose id matches: the read-back of
`query_one("#" + i, Label)` on a composed child list. -/
def findLabelText (i : String) : List Widget → Option String
  | [] => none
  | Widget.label (some j) _ t :: ws =>
      if j = i then some t else findLabelText i ws
  | _ :: ws => findLabelText i ws

/-- Text of the first label carrying the given CSS class (read-back for
the class-selected label of EnhancedFooter). -/
def findLabelTextByClass (c : String) : List Widget → Option String
  | [] => none
  | Widget.label _ (some k) t :: ws =>
      if k = c then some t else findLabelTextByClass c ws
  | _ :: ws => findLabelTextByClass c ws

/-- `query_one("#" + i, Label)` followed by `.update(s)`: replace the text
of the first label with id `i`; `none` models the NoMatches raise. -/
def updateLabel (i : String) (s : String) : List Widget → Option (List Widget)
  | [] => none
  | Widget.label (some j) c t :: ws =>
      if j = i then some (Widget.label (some j) c s :: ws)
      else (updateLabel i s ws).map (fun r => Widget.label (some j) c t :: r)
  | w :: ws => (updateLabel i s ws).map (fun r => w :: r)

/-- State of a `DynamicFooter` widget (footer.py lines 37-49):
the reactive `status` string, the composed children (empty before
mount), whether the widget has been mounted, and how many times the
status label has been refreshed via `Label.update`. -/
structure DynamicFooter where
  status : String
  children : List Widget
  mounted : Bool
  refreshCount : Nat
deriving DecidableEq

/-- A freshly constructed `DynamicFooter()`: the reactive declaration
`status = reactive("Ready")` gives the default; nothing is composed yet. -/
def DynamicFooter.new : DynamicFooter :=
  ⟨"Ready", [], false, 0⟩

/-- `DynamicFooter.compose` (lines 42-44): yields `Footer()` and
`Label(self.status, id="status")`. -/
def DynamicFooter.compose (status : String) : List Widget :=
  [Widget.footer none, Widget.label (some "status") none status]

/-- Mounting runs `compose`, so the label is created showing the current
`status` value. -/
def DynamicFooter.mount (st : DynamicFooter) : DynamicFooter :=
  { st with mounted := true, children := DynamicFooter.compose st.status }

/-- `DynamicFooter.watch_status` (lines 46-49):
`status_label = self.query_one("#status", Label); status_label.update(status)`.
The query raises NoMatches when no label with id "status" exists. -/
def DynamicFooter.watch_status (st : DynamicFooter) (status : String) :
    Except QueryError DynamicFooter :=
  match updateLabel "status" status st.children with
  | some ws => Except.ok { st with children := ws, refreshCount := st.refreshCount + 1 }
  | none => Except.error QueryError.noMatches

/-- The spec's `setStatus(s)` is the reactive assignment
`self.status = s`.  Per Textual's Reactive with the default
`always_update=False`, an assignment of a value equal to the stored one
does nothing (no store, no watcher); otherwise the value is stored and
`watch_status` runs synchronously with the new value. -/
def DynamicFooter.setStatus (st : DynamicFooter) (s : String) :
    Except QueryError DynamicFooter :=
  if s = st.status then Except.ok st
  else DynamicFooter.watch_status { st with status := s } s

/-- Displayed text of the status label, when it exists. -/
def DynamicFooter.labelText (st : DynamicFooter) : Option String :=
  findLabelText "status" st.children

/-- Displayed text of the status label after a possibly-failing call. -/
def labelTextE (r : Except QueryError DynamicFooter) : Option String :=
  match r with
  | Except.ok st => st.labelText
  | Except.error _ => none

/-- Refresh counter after a possibly-failing call. -/
def refreshCountE (r : Except QueryError DynamicFooter) : Option Nat :=
  match r with
  | Except.ok st => some st.refreshCount
  | Except.error _ => none

/-- States of a `DynamicFooter` reachable by the component's lifecycle:
construction, mounting, and successful `setStatus` calls. -/
inductive Reachable : DynamicFooter → Prop where
  | init : Reachable DynamicFooter.new
  | mount {st : DynamicFooter} : Reachable st → Reachable st.mount
  | set {st st' : DynamicFooter} {s : String} :
      Reachable st → st.setStatus s = Except.ok st' → Reachable st'

/-- State of an `EnhancedFooter` widget (footer.py lines 51-83). -/
structure EnhancedFooter where
  status_text : String
  children : List Widget
deriving DecidableEq

/-- `EnhancedFooter.__init__(status_text="Ready")` (lines 77-79); the
caller passes the default "Ready" explicitly when omitted. -/
def EnhancedFooter.init (status_text : String) : EnhancedFooter :=
  ⟨status_text, []⟩

/-- `EnhancedFooter.compose` (lines 81-83): yields `Footer()` and
`Label(self.status_text, classes="status-section")`. -/
def EnhancedFooter.mount (st : EnhancedFooter) : EnhancedFooter :=
  { st with children :=
      [Widget.footer none, Widget.label none (some "status-section") st.status_text] }

/-- Displayed text of the status-section label of an `EnhancedFooter`. -/
def EnhancedFooter.statusText (st : EnhancedFooter) : Option String :=
  findLabelTextByClass "status-section" st.children

/-- State of the `NoScrollFooterApp` application (footer.py lines 85-129):
the reactive `status` and the composed widget tree. -/
structure NoScrollFooterApp where
  status : String
  children : List Widget
deriving DecidableEq

/-- `NoScrollFooterApp()` with the reactive default
`status = reactive("Ready")` (line 119). -/
def NoScrollFooterApp.new : NoScrollFooterApp :=
  ⟨"Ready", []⟩

/-- `NoScrollFooterApp.compose` (lines 121-126): yields `Header()`,
`Footer(id="footer-keys")` and `Label(self.status, id="footer-status")`. -/
def NoScrollFooterApp.compose (status : String) : List Widget :=
  [Widget.header, Widget.footer (some "footer-keys"),
   Widget.label (some "footer-status") none status]

/-- Reactive assignment `self.status = s` on `NoScrollFooterApp`: the
class defines no `watch_status` method, so the assignment only stores
the value; no composed widget is touched. -/
def NoScrollFooterApp.setStatus (st : NoScrollFooterApp) (s : String) :
    NoScrollFooterApp :=
  { st with status := s }

/-- `NoScrollFooterApp.on_mount` (lines 128-129):
`self.status = "Application loaded successfully"`. -/
def NoScrollFooterApp.on_mount (st : NoScrollFooterApp) : NoScrollFooterApp :=
  st.setStatus "Application loaded successfully"

/-- App startup: `compose` builds the tree from the current status, then
the Mount event runs `on_mount`. -/
def NoScrollFooterApp.mount (st : NoScrollFooterApp) : NoScrollFooterApp :=
  NoScrollFooterApp.on_mount { st with children := NoScrollFooterApp.compose st.status }

/-- Displayed text of the label with id "footer-status". -/
def NoScrollFooterApp.footerStatusText (st : NoScrollFooterApp) : Option String :=
  findLabelText "footer-status" st.children

/-- Names the module's import statements bind (footer.py lines 1-4):
`App, ComposeResult` from textual.app, `Footer, Label, Header` from
textual.widgets, `Horizontal` from textual.containers, `reactive`
from textual.reactive. -/
def importedNames : List String :=
  ["App", "ComposeResult", "Footer", "Label", "Header", "Horizontal", "reactive"]

/-- The module's top-level class statements in order, each paired with
the base-class name its header evaluates. -/
def classDefs : List (String × String) :=
  [("ContainerFooterApp", "App"), ("DynamicFooter", "Container"),
   ("EnhancedFooter", "Container"), ("NoScrollFooterApp", "App")]

/-- Executing the module top level: each class statement looks up its
base name in the names bound so far; an unbound name raises NameError
(modelled as `Except.error` carrying the offending name) and stops
execution. -/
def execTopLevel : List (String × String) → List String → Except String (List String)
  | [], env => Except.ok env
  | (cls, base) :: rest, env =>
      if env.contains base then execTopLevel rest (env ++ [cls])
      else Except.error base

/-- Importing footer.py: run the top-level class statements against the
imported names. -/
def moduleLoad : Except String (List String) :=
  execTopLevel classDefs importedNames

/-- In every reachable state the children are exactly the compose result
for the current status once mounted, and empty before mount. -/
theorem reachable_children {st : DynamicFooter} (h : Reachable st) :
    st.children =
      if st.mounted then
        [Widget.footer none, Widget.label (some "status") none st.status]
      else [] := by
  induction h with
  | init => rfl
  | mount _ _ => simp [DynamicFooter.mount, DynamicFooter.compose]
  | set hr hs ih =>
      rename_i st st' s
      by_cases hcase : s = st.status
      · rw [DynamicFooter.setStatus, if_pos hcase] at hs
        cases hs
        exact ih
      · rw [DynamicFooter.setStatus, if_neg hcase] at hs
        cases hm : st.mounted with
        | true =>
            rw [if_pos hm] at ih
            rw [DynamicFooter.watch_status] at hs
            simp only [ih, updateLabel] at hs
            cases hs
            simp [hm]
        | false =>
            rw [if_neg (by simp [hm])] at ih
            rw [DynamicFooter.watch_status] at hs
            simp only [ih, updateLabel] at hs
            cases hs

/-- While mounted, the status label shows exactly the current status. -/
theorem reachable_labelText {st : DynamicFooter} (h : Reachable st)
    (hm : st.mounted = true) : st.labelText = some st.status := by
  have hc := reachable_children h
  rw [if_pos hm] at hc
  simp [DynamicFooter.labelText, hc, findLabelText]

/-- Full characterisation of `setStatus` from a reachable mounted state:
an equal value is a no-op, a different value succeeds and rewrites the
label, bumping the refresh count. -/
theorem setStatus_ok_of_mounted {st : DynamicFooter} (h : Reachable st)
    (hm : st.mounted = true) (s : String) :
    st.setStatus s =
      Except.ok
        (if s = st.status then st
         else
           { status := s,
             children := [Widget.footer none, Widget.label (some "status") none s],
             mounted := st.mounted,
             refreshCount := st.refreshCount + 1 }) := by
  have hc := reachable_children h
  rw [if_pos hm] at hc
  by_cases hcase : s = st.status
  · rw [DynamicFooter.setStatus, if_pos hcase, if_pos hcase]
  · rw [DynamicFooter.setStatus, if_neg hcase, if_neg hcase,
      DynamicFooter.watch_status]
    simp only [hc, updateLabel]
    rfl

/-- C1: for every string s, from any reachable mounted state of
`DynamicFooter` (the display label exists), `setStatus s` succeeds and
leaves the status label displaying exactly s. -/
theorem c1_setStatus_sets_label (st : DynamicFooter) (s : String)
    (h : Reachable st) (hm : st.mounted = true) :
    labelTextE (st.setStatus s) = some s := by
  rw [setStatus_ok_of_mounted h hm]
  by_cases hcase : s = st.status
  · rw [if_pos hcase]
    simp [labelTextE, reachable_labelText h hm, hcase]
  · rw [if_neg hcase]
    simp [labelTextE, DynamicFooter.labelText, findLabelText]

/-- Witness for C1 at the concrete mounted state and s = "hello". -/
theorem c1_setStatus_sets_label_witness :
    labelTextE (DynamicFooter.new.mount.setStatus "hello") = some "hello" :=
  c1_setStatus_sets_label DynamicFooter.new.mount "hello"
    (Reachable.mount Reachable.init) rfl

/-- C2: end-to-end scenario on the reactive binder: a fresh component
holds the default "Ready"; after mounting the label shows "Ready"; after
`setStatus "Application loaded successfully"` the label shows
"Application loaded successfully". -/
theorem c2_scenario_ready_then_loaded :
    DynamicFooter.new.status = "Ready" ∧
    DynamicFooter.new.mount.labelText = some "Ready" ∧
    labelTextE (DynamicFooter.new.mount.setStatus "Application loaded successfully") =
      some "Application loaded successfully" :=
  ⟨rfl, rfl, rfl⟩

/-- C3 counterexample: before mount (no children composed), the reactive
assignment `setStatus "BeforeMount"` runs `watch_status`, whose
`query_one` finds no label and raises NoMatches — not a silent no-op. -/
theorem c3_counterexample_unmounted_set_raises :
    DynamicFooter.new.setStatus "BeforeMount" = Except.error QueryError.noMatches :=
  rfl

/-- C3 amended: before mount, `setStatus s` is a silent no-op only when
s equals the stored status (the reactive skips unchanged values);
when s differs, the watcher runs, its query finds no display element,
and the call raises NoMatches. -/
theorem c3_amended_unmounted_set (st : DynamicFooter) (s : String)
    (h : Reachable st) (hm : st.mounted = false) :
    st.setStatus s =
      if s = st.status then Except.ok st else Except.error QueryError.noMatches := by
  have hc := reachable_children h
  rw [if_neg (by simp [hm])] at hc
  by_cases hcase : s = st.status
  · rw [DynamicFooter.setStatus, if_pos hcase, if_pos hcase]
  · rw [DynamicFooter.setStatus, if_neg hcase, if_neg hcase,
      DynamicFooter.watch_status]
    simp [hc, updateLabel]

/-- Witness for C3's amended claim at the fresh state and s = "Hello". -/
theorem c3_amended_unmounted_set_witness :
    DynamicFooter.new.setStatus "Hello" = Except.error QueryError.noMatches := by
  rw [c3_amended_unmounted_set DynamicFooter.new "Hello" Reachable.init rfl]
  rfl

/-- C4: in every reachable mounted state — i.e. at every observable
point of the lifecycle — the status label displays exactly the most
recently set status value. -/
theorem c4_label_invariant (st : DynamicFooter)
    (h : Reachable st) (hm : st.mounted = true) :
    st.labelText = some st.status :=
  reachable_labelText h hm

/-- Witness for C4 at the freshly mounted state. -/
theorem c4_label_invariant_witness :
    DynamicFooter.new.mount.labelText = some DynamicFooter.new.mount.status :=
  c4_label_invariant DynamicFooter.new.mount (Reachable.mount Reachable.init) rfl

/-- C5 counterexample: assigning the value already stored ("Ready" on a
freshly mounted component) does not bump the refresh counter by one —
the reactive default deduplicates, so no refresh happens at all. -/
theorem c5_counterexample_redundant_set_not_refreshed :
    ¬ refreshCountE (DynamicFooter.new.mount.setStatus "Ready") =
        some (DynamicFooter.new.mount.refreshCount + 1) := by
  decide

/-- C5 amended: from a reachable mounted state, `setStatus s` triggers
exactly one display refresh when s differs from the stored value, and
no refresh at all when s equals it (Textual's reactive default
`always_update=False` skips redundant assignments). -/
theorem c5_amended_refresh_iff_changed (st : DynamicFooter) (s : String)
    (h : Reachable st) (hm : st.mounted = true) :
    refreshCountE (st.setStatus s) =
      some (if s = st.status then st.refreshCount else st.refreshCount + 1) := by
  rw [setStatus_ok_of_mounted h hm]
  by_cases hcase : s = st.status
  · rw [if_pos hcase, if_pos hcase]
    rfl
  · rw [if_neg hcase, if_neg hcase]
    rfl

/-- Witness for C5's amended claim: a changed value refreshes once. -/
theorem c5_amended_refresh_iff_changed_witness :
    refreshCountE (DynamicFooter.new.mount.setStatus "Busy") = some 1 := by
  rw [c5_amended_refresh_iff_changed DynamicFooter.new.mount "Busy"
    (Reachable.mount Reachable.init) rfl]
  rfl

/-- C6: idempotence — from a reachable mounted state, calling
`setStatus s` twice in succession leaves the label showing exactly s
(no concatenation or double-update artifact). -/
theorem c6_setStatus_idempotent (st : DynamicFooter) (s : String)
    (h : Reachable st) (hm : st.mounted = true) :
    labelTextE ((st.setStatus s).bind (fun st1 => st1.setStatus s)) = some s := by
  rw [setStatus_ok_of_mounted h hm]
  by_cases hcase : s = st.status
  · rw [if_pos hcase]
    show labelTextE (st.setStatus s) = some s
    rw [setStatus_ok_of_mounted h hm, if_pos hcase]
    simp [labelTextE, reachable_labelText h hm, hcase]
  · rw [if_neg hcase]
    simp [labelTextE, DynamicFooter.setStatus, DynamicFooter.labelText,
      findLabelText, Except.bind]

/-- Witness for C6 at the concrete mounted state and s = "Done". -/
theorem c6_setStatus_idempotent_witness :
    labelTextE ((DynamicFooter.new.mount.setStatus "Done").bind
      (fun st1 => st1.setStatus "Done")) = some "Done" :=
  c6_setStatus_idempotent DynamicFooter.new.mount "Done"
    (Reachable.mount Reachable.init) rfl

/-- C7: initial state — before any `setStatus` call, a freshly
constructed and mounted component displays the configured default
"Ready"; this holds for the reactive default of `DynamicFooter` and for
the constructor default of `EnhancedFooter`. -/
theorem c7_initial_display_default :
    DynamicFooter.new.status = "Ready" ∧
    DynamicFooter.new.mount.labelText = some "Ready" ∧
    (EnhancedFooter.init "Ready").status_text = "Ready" ∧
    (EnhancedFooter.init "Ready").mount.statusText = some "Ready" :=
  ⟨rfl, rfl, rfl, rfl⟩

/-- C8: frame property — from a reachable mounted state, a successful
`setStatus s` changes only the text of the single status label: the
mount flag is untouched, the child list keeps its length, the first
child (the Footer widget) is exactly the one from before, and the
second child is the status label now carrying text s. -/
theorem c8_setStatus_frame (st : DynamicFooter) (s : String) (st' : DynamicFooter)
    (h : Reachable st) (hm : st.mounted = true)
    (hs : st.setStatus s = Except.ok st') :
    st'.mounted = st.mounted ∧
    st'.children.length = st.children.length ∧
    st'.children.get? 0 = st.children.get? 0 ∧
    st'.children.get? 1 = some (Widget.label (some "status") none s) := by
  have hc := reachable_children h
  rw [if_pos hm] at hc
  rw [setStatus_ok_of_mounted h hm] at hs
  by_cases hcase : s = st.status
  · rw [if_pos hcase] at hs
    cases hs
    refine ⟨rfl, rfl, rfl, ?_⟩
    simp [hc, hcase]
  · rw [if_neg hcase] at hs
    cases hs
    simp [hc]

/-- Witness for C8 at the freshly mounted state and s = "Saved". -/
theorem c8_setStatus_frame_witness :
    (DynamicFooter.mk "Saved"
        [Widget.footer none, Widget.label (some "status") none "Saved"] true 1).mounted
      = DynamicFooter.new.mount.mounted ∧
    (DynamicFooter.mk "Saved"
        [Widget.footer none, Widget.label (some "status") none "Saved"] true 1).children.length
      = DynamicFooter.new.mount.children.length ∧
    (DynamicFooter.mk "Saved"
        [Widget.footer none, Widget.label (some "status") none "Saved"] true 1).children.get? 0
      = DynamicFooter.new.mount.children.get? 0 ∧
    (DynamicFooter.mk "Saved"
        [Widget.footer none, Widget.label (some "status") none "Saved"] true 1).children.get? 1
      = some (Widget.label (some "status") none "Saved") :=
  c8_setStatus_frame DynamicFooter.new.mount "Saved"
    (DynamicFooter.mk "Saved"
      [Widget.footer none, Widget.label (some "status") none "Saved"] true 1)
    (Reachable.mount Reachable.init) rfl rfl

/-- C9: evaluating the module's top level fails with NameError on the
unbound name "Container" (only Horizontal is imported from
textual.containers), so the module never finishes loading and no
component can be constructed. -/
theorem c9_module_load_name_error :
    moduleLoad = Except.error "Container" ∧
    importedNames.contains "Container" = false :=
  ⟨rfl, rfl⟩

/-- C10: `NoScrollFooterApp` declares the reactive `status` but no
`watch_status` method, so after mounting (where `on_mount` assigned
"Application loaded successfully") the stored status changed while the
label with id "footer-status" still shows the compose-time value
"Ready"; moreover any further assignment changes no composed widget. -/
theorem c10_noscroll_label_never_updates (s : String) :
    NoScrollFooterApp.new.mount.status = "Application loaded successfully" ∧
    NoScrollFooterApp.new.mount.footerStatusText = some "Ready" ∧
    (NoScrollFooterApp.new.mount.setStatus s).footerStatusText = some "Ready" ∧
    (NoScrollFooterApp.new.mount.setStatus s).children =
      NoScrollFooterApp.new.mount.children :=
  ⟨rfl, rfl, rfl, rfl⟩
